import Mathlib

/-!
Shallow embedding of the schema-provider resolution and projection core of
`ts-api-spec` (source file `src/infer-utilities.types.ts`).

The source expresses the whole pipeline as TypeScript compile-time type
functions over an `ApiSpec` description tree.  We reify the description tree
as concrete data and each type function as an executable Lean function with
the same conditional spine.  The companion modules the source imports
(`api-spec.types`, `basic-utilities.types`, `schema-type.types`,
`schema-type-ts`) are not part of the repository snapshot; the definitions
taken from them are modelled from the design document and marked as such.
-/

namespace TsApiSpec

/-- Names of endpoints and of entry parameters inside a collection. -/
abbrev Name := String

/-- Modelled from the spec: a schema provider is identified by an opaque
identifier; metadata `schemaType` fields bind a location to a provider by
this identifier (the missing `schema-type.types` module carries the
provider object itself in the type; the design document's registry keys
providers by identifier). -/
abbrev ProviderId := String

/-- Modelled from the spec: an opaque, provider-specific schema value. -/
abbrev Schema := String

/-- Modelled from the spec: a concrete input/output type shape produced by a
provider projection. -/
abbrev Shape := String

/-- Modelled from the spec: `ApiBaseMetadata` from the missing
`api-spec.types` module — at minimum an optional `schemaType` field naming a
provider. -/
structure ApiBaseMetadata where
  schemaType : Option ProviderId
deriving DecidableEq, Repr

/-- Modelled from the spec: `ApiParameter` from the missing `api-spec.types`
module — a schema value plus optional metadata.  The schema is optional
here because the design document's §4.3/§9 describe the source's live
fallback branch for a value that is not assignable to `ApiParameter`
(no schema): such a value is passed raw to the provider projection. -/
structure ApiParameter where
  schema : Option Schema
  metadata : Option ApiBaseMetadata
deriving DecidableEq, Repr

/-- Modelled from the spec: `ApiDataParameter` (request/response bodies) has
the same shape as `ApiParameter`. -/
abbrev ApiDataParameter := ApiParameter

/-- The five name-keyed entry kinds of an endpoint.  `body` is not an
`ApiEntry`: it is a single optional `ApiDataParameter` handled by dedicated
functions, mirroring the entry-kind asymmetry of the source. -/
inductive ApiEntry where
  | params
  | query
  | headers
  | cookies
  | responses
deriving DecidableEq, Repr

/-- Modelled from the spec: `ApiEndpoint` from the missing `api-spec.types`
module — optional metadata, five name-keyed `ApiParameter` collections and
an optional body `ApiDataParameter`. -/
structure ApiEndpoint where
  metadata : Option ApiBaseMetadata
  params : List (Name × ApiParameter)
  query : List (Name × ApiParameter)
  headers : List (Name × ApiParameter)
  cookies : List (Name × ApiParameter)
  responses : List (Name × ApiParameter)
  body : Option ApiDataParameter
deriving DecidableEq, Repr

/-- Modelled from the spec: `ApiSpec` from the missing `api-spec.types`
module — optional metadata plus a mapping from endpoint name to endpoint. -/
structure ApiSpec where
  metadata : Option ApiBaseMetadata
  endpoints : List (Name × ApiEndpoint)
deriving DecidableEq, Repr

/-- The collection of a given entry kind on an endpoint (the source indexes
the endpoint with the entry-kind name: `Endpoint[Entry]`). -/
def ApiEndpoint.entryColl (e : ApiEndpoint) : ApiEntry → List (Name × ApiParameter)
  | .params => e.params
  | .query => e.query
  | .headers => e.headers
  | .cookies => e.cookies
  | .responses => e.responses

/-- Lookup of a named parameter in an entry-kind collection (the source
indexes the collection with the parameter name: `Endpoint[Entry][EntryParam]`). -/
def lookupName (l : List (Name × ApiParameter)) (n : Name) : Option ApiParameter :=
  (l.find? (fun e => e.1 == n)).map (fun e => e.2)

/-- Modelled from the spec: `ApiGetEndpoint` from the missing
`basic-utilities.types` module — endpoint lookup by name.  In the source the
constraint `Endpoint extends keyof Api["endpoints"]` rejects missing names;
the design document reifies that rejection as the `UnknownEndpoint` signal. -/
def ApiGetEndpoint (api : ApiSpec) (endpoint : Name) : Option ApiEndpoint :=
  (api.endpoints.find? (fun e => e.1 == endpoint)).map (fun e => e.2)

/-- Modelled from the spec: `ApiGetEndpointBody` from the missing
`basic-utilities.types` module — the endpoint's body field. -/
def ApiGetEndpointBody (api : ApiSpec) (endpoint : Name) : Option ApiDataParameter :=
  match ApiGetEndpoint api endpoint with
  | some e => e.body
  | none => none

/-- Resolution-time error conditions of the design document §7.  In the
source the first two are compile-time constraint rejections and the third
lives in the missing provider modules; the embedding reifies all three. -/
inductive ResolveError where
  | UnknownEndpoint
  | UnknownEntry
  | ProviderNotFound (id : ProviderId)
deriving DecidableEq, Repr

/-- Modelled from the spec: the identifier of the built-in TypeScript schema
provider (`ApiTypeScriptSchema` from the missing `schema-type-ts` module),
the source's default value for every `DefaultSchemaType` parameter. -/
def ApiTypeScriptSchema : ProviderId := "typescript"

/-- Embeds `ApiGetSchemaType` (source lines 27–34): the api-spec-level
schema type, falling back to the supplied default (itself defaulted to the
built-in TypeScript provider). -/
def ApiGetSchemaType (api : ApiSpec)
    (defaultSchemaType : ProviderId := ApiTypeScriptSchema) : ProviderId :=
  match api.metadata with
  | some meta =>
    match meta.schemaType with
    | some t => t
    | none => defaultSchemaType
  | none => defaultSchemaType

/-- Embeds `ApiGetEndpointSchemaType` (source lines 45–54): the endpoint's
schema type, falling back to the api-spec level.  A missing endpoint name
violates the source's `keyof` constraint, reified as `UnknownEndpoint`. -/
def ApiGetEndpointSchemaType (api : ApiSpec) (endpoint : Name)
    (defaultSchemaType : ProviderId := ApiTypeScriptSchema) :
    Except ResolveError ProviderId :=
  match ApiGetEndpoint api endpoint with
  | none => .error .UnknownEndpoint
  | some computedEndpoint =>
    match computedEndpoint.metadata with
    | some meta =>
      match meta.schemaType with
      | some t => .ok t
      | none => .ok (ApiGetSchemaType api defaultSchemaType)
    | none => .ok (ApiGetSchemaType api defaultSchemaType)

/-- Embeds `ApiGetEndpointBodySchemaType` (source lines 66–79): the body's
schema type when the body is a well-formed `ApiDataParameter` (present, with
a schema — the source's `extends ApiDataParameter` test), else the
endpoint-level schema type. -/
def ApiGetEndpointBodySchemaType (api : ApiSpec) (endpoint : Name)
    (defaultSchemaType : ProviderId := ApiTypeScriptSchema) :
    Except ResolveError ProviderId :=
  match ApiGetEndpoint api endpoint with
  | none => .error .UnknownEndpoint
  | some computedEndpoint =>
    match computedEndpoint.body with
    | some param =>
      match param.schema with
      | some _ =>
        match param.metadata with
        | some meta =>
          match meta.schemaType with
          | some t => .ok t
          | none => ApiGetEndpointSchemaType api endpoint defaultSchemaType
        | none => ApiGetEndpointSchemaType api endpoint defaultSchemaType
      | none => ApiGetEndpointSchemaType api endpoint defaultSchemaType
    | none => ApiGetEndpointSchemaType api endpoint defaultSchemaType

/-- Embeds `ApiGetEndpointEntrySchemaType` (source lines 93–108): the named
entry's schema type when the entry value is a well-formed `ApiParameter`
(the source's `extends ApiParameter` test), else the endpoint-level schema
type.  A missing entry name violates the source's
`EntryParam extends keyof Endpoint[Entry]` constraint, reified as
`UnknownEntry`. -/
def ApiGetEndpointEntrySchemaType (api : ApiSpec) (endpoint : Name)
    (entry : ApiEntry) (entryParam : Name)
    (defaultSchemaType : ProviderId := ApiTypeScriptSchema) :
    Except ResolveError ProviderId :=
  match ApiGetEndpoint api endpoint with
  | none => .error .UnknownEndpoint
  | some computedEndpoint =>
    match lookupName (computedEndpoint.entryColl entry) entryParam with
    | none => .error .UnknownEntry
    | some param =>
      match param.schema with
      | some _ =>
        match param.metadata with
        | some meta =>
          match meta.schemaType with
          | some t => .ok t
          | none => ApiGetEndpointSchemaType api endpoint defaultSchemaType
        | none => ApiGetEndpointSchemaType api endpoint defaultSchemaType
      | none => ApiGetEndpointSchemaType api endpoint defaultSchemaType

/-- The declared schema type carried by an optional metadata field: `none`
when the metadata or its `schemaType` is absent.  Used to state cascade
properties about levels that declare, or fail to declare, a provider. -/
def metaSchemaTypeOf : Option ApiBaseMetadata → Option ProviderId
  | some meta => meta.schemaType
  | none => none

/-- Operand handed to a provider projection: a schema value, a raw
parameter (the schema-absent pass-through of the design document §4.3/§9),
or the absent body location. -/
inductive Operand where
  | schemaVal (s : Schema)
  | rawParam (p : ApiParameter)
  | absent
deriving DecidableEq, Repr

/-- Modelled from the spec: a schema provider exposes the two projection
operations of the design document §3 (`schema-type.types` is not in the
snapshot). -/
structure SchemaProvider where
  projectInput : Operand → Shape
  projectOutput : Operand → Shape

/-- Modelled from the spec: the Provider Registry §4.1 — a mapping from
provider identifier to provider descriptor. -/
abbrev Registry := List (ProviderId × SchemaProvider)

/-- Modelled from the spec: registry lookup, signalling `ProviderNotFound`
with the requested id when the id is unregistered (§4.1). -/
def Registry.lookup (reg : Registry) (id : ProviderId) :
    Except ResolveError SchemaProvider :=
  match reg.find? (fun e => e.1 == id) with
  | some e => .ok e.2
  | none => .error (.ProviderNotFound id)

/-- Modelled from the spec: `InferInputTypeFromSchema` from the missing
`schema-type.types` module — apply the provider's input projection to the
operand and return the result unmodified (§4.3 step 4). -/
def InferInputTypeFromSchema (provider : SchemaProvider) (op : Operand) : Shape :=
  provider.projectInput op

/-- Modelled from the spec: `InferOutputTypeFromSchema` from the missing
`schema-type.types` module — apply the provider's output projection to the
operand and return the result unmodified (§4.3 step 4). -/
def InferOutputTypeFromSchema (provider : SchemaProvider) (op : Operand) : Shape :=
  provider.projectOutput op

/-- Embeds `ApiInferEndpointBody` (source lines 124–147): when the body is a
well-formed `ApiDataParameter`, project its schema under the body-level
cascade; otherwise pass the raw body value through under the endpoint-level
cascade.  Registry lookup is the design document's §4.3 step 3 (in the
source the provider object travels inside the schema type itself). -/
def ApiInferEndpointBody (reg : Registry) (api : ApiSpec) (endpoint : Name)
    (defaultSchemaType : ProviderId := ApiTypeScriptSchema) :
    Except ResolveError Shape :=
  match ApiGetEndpoint api endpoint with
  | none => .error .UnknownEndpoint
  | some computedEndpoint =>
    match computedEndpoint.body with
    | some param =>
      match param.schema with
      | some s =>
        match ApiGetEndpointBodySchemaType api endpoint defaultSchemaType with
        | .error e => .error e
        | .ok pid =>
          match Registry.lookup reg pid with
          | .error e => .error e
          | .ok provider => .ok (InferInputTypeFromSchema provider (.schemaVal s))
      | none =>
        match ApiGetEndpointSchemaType api endpoint defaultSchemaType with
        | .error e => .error e
        | .ok pid =>
          match Registry.lookup reg pid with
          | .error e => .error e
          | .ok provider => .ok (InferInputTypeFromSchema provider (.rawParam param))
    | none =>
      match ApiGetEndpointSchemaType api endpoint defaultSchemaType with
      | .error e => .error e
      | .ok pid =>
        match Registry.lookup reg pid with
        | .error e => .error e
        | .ok provider => .ok (InferInputTypeFromSchema provider .absent)

/-- Common spine of the two entry projection functions: resolve the entry's
provider once via `ApiGetEndpointEntrySchemaType`, look it up in the
registry, pick the operand (declared schema, else the raw parameter), and
apply the given projection.  The source's input and output variants differ
only in the projection they apply; this definition makes that sharing a
provable statement. -/
def ApiInferEndpointEntryWith (proj : SchemaProvider → Operand → Shape)
    (reg : Registry) (api : ApiSpec) (endpoint : Name)
    (entry : ApiEntry) (entryParam : Name)
    (defaultSchemaType : ProviderId := ApiTypeScriptSchema) :
    Except ResolveError Shape :=
  match ApiGetEndpoint api endpoint with
  | none => .error .UnknownEndpoint
  | some computedEndpoint =>
    match lookupName (computedEndpoint.entryColl entry) entryParam with
    | none => .error .UnknownEntry
    | some computedEntryParam =>
      match ApiGetEndpointEntrySchemaType api endpoint entry entryParam defaultSchemaType with
      | .error e => .error e
      | .ok pid =>
        match Registry.lookup reg pid with
        | .error e => .error e
        | .ok provider =>
          match computedEntryParam.schema with
          | some s => .ok (proj provider (.schemaVal s))
          | none => .ok (proj provider (.rawParam computedEntryParam))

/-- Embeds `ApiInferEndpointInputEntry` (source lines 165–196): project the
named entry's schema (or the raw entry when it carries no schema) with the
input projection of the provider resolved by the entry-level cascade. -/
def ApiInferEndpointInputEntry (reg : Registry) (api : ApiSpec) (endpoint : Name)
    (entry : ApiEntry) (entryParam : Name)
    (defaultSchemaType : ProviderId := ApiTypeScriptSchema) :
    Except ResolveError Shape :=
  match ApiGetEndpoint api endpoint with
  | none => .error .UnknownEndpoint
  | some computedEndpoint =>
    match lookupName (computedEndpoint.entryColl entry) entryParam with
    | none => .error .UnknownEntry
    | some computedEntryParam =>
      match ApiGetEndpointEntrySchemaType api endpoint entry entryParam defaultSchemaType with
      | .error e => .error e
      | .ok pid =>
        match Registry.lookup reg pid with
        | .error e => .error e
        | .ok provider =>
          match computedEntryParam.schema with
          | some s => .ok (InferInputTypeFromSchema provider (.schemaVal s))
          | none => .ok (InferInputTypeFromSchema provider (.rawParam computedEntryParam))

/-- Embeds `ApiInferEndpointOutputEntry` (source lines 214–245): identical
to the input variant except that it applies the provider's output
projection. -/
def ApiInferEndpointOutputEntry (reg : Registry) (api : ApiSpec) (endpoint : Name)
    (entry : ApiEntry) (entryParam : Name)
    (defaultSchemaType : ProviderId := ApiTypeScriptSchema) :
    Except ResolveError Shape :=
  match ApiGetEndpoint api endpoint with
  | none => .error .UnknownEndpoint
  | some computedEndpoint =>
    match lookupName (computedEndpoint.entryColl entry) entryParam with
    | none => .error .UnknownEntry
    | some computedEntryParam =>
      match ApiGetEndpointEntrySchemaType api endpoint entry entryParam defaultSchemaType with
      | .error e => .error e
      | .ok pid =>
        match Registry.lookup reg pid with
        | .error e => .error e
        | .ok provider =>
          match computedEntryParam.schema with
          | some s => .ok (InferOutputTypeFromSchema provider (.schemaVal s))
          | none => .ok (InferOutputTypeFromSchema provider (.rawParam computedEntryParam))

/-! ## Helper lemmas (shared) -/

theorem metaSchemaTypeOf_eq_none (m : Option ApiBaseMetadata)
    (h : metaSchemaTypeOf m = none) :
    m = none ∨ ∃ meta, m = some meta ∧ meta.schemaType = none := by
  cases m with
  | none => exact .inl rfl
  | some meta => exact .inr ⟨meta, rfl, h⟩

theorem ApiGetSchemaType_of_none (api : ApiSpec) (d : ProviderId)
    (h : metaSchemaTypeOf api.metadata = none) :
    ApiGetSchemaType api d = d := by
  rcases metaSchemaTypeOf_eq_none _ h with h1 | ⟨meta, h1, h2⟩
  · simp [ApiGetSchemaType, h1]
  · simp [ApiGetSchemaType, h1, h2]

theorem ApiGetSchemaType_of_some (api : ApiSpec) (d : ProviderId)
    (ta : ProviderId) (h : metaSchemaTypeOf api.metadata = some ta) :
    ApiGetSchemaType api d = ta := by
  cases hm : api.metadata with
  | none => rw [hm] at h; exact absurd h (by simp [metaSchemaTypeOf])
  | some meta =>
    rw [hm] at h
    simp [metaSchemaTypeOf] at h
    simp [ApiGetSchemaType, hm, h]

theorem ApiGetEndpointSchemaType_of_none (api : ApiSpec) (endpoint : Name)
    (d : ProviderId) (ep : ApiEndpoint)
    (hep : ApiGetEndpoint api endpoint = some ep)
    (h : metaSchemaTypeOf ep.metadata = none) :
    ApiGetEndpointSchemaType api endpoint d = .ok (ApiGetSchemaType api d) := by
  rcases metaSchemaTypeOf_eq_none _ h with h1 | ⟨meta, h1, h2⟩
  · simp [ApiGetEndpointSchemaType, hep, h1]
  · simp [ApiGetEndpointSchemaType, hep, h1, h2]

theorem ApiGetEndpointSchemaType_of_some (api : ApiSpec) (endpoint : Name)
    (d : ProviderId) (ep : ApiEndpoint) (te : ProviderId)
    (hep : ApiGetEndpoint api endpoint = some ep)
    (h : metaSchemaTypeOf ep.metadata = some te) :
    ApiGetEndpointSchemaType api endpoint d = .ok te := by
  cases hm : ep.metadata with
  | none => rw [hm] at h; exact absurd h (by simp [metaSchemaTypeOf])
  | some meta =>
    rw [hm] at h
    simp [metaSchemaTypeOf] at h
    simp [ApiGetEndpointSchemaType, hep, hm, h]

theorem ApiGetEndpointSchemaType_isOk (api : ApiSpec) (endpoint : Name)
    (d : ProviderId) (ep : ApiEndpoint)
    (hep : ApiGetEndpoint api endpoint = some ep) :
    ∃ t, ApiGetEndpointSchemaType api endpoint d = .ok t := by
  cases hm : metaSchemaTypeOf ep.metadata with
  | none => exact ⟨_, ApiGetEndpointSchemaType_of_none api endpoint d ep hep hm⟩
  | some te => exact ⟨te, ApiGetEndpointSchemaType_of_some api endpoint d ep te hep hm⟩

theorem Registry_lookup_cases (reg : Registry) (id : ProviderId) :
    (∃ p, Registry.lookup reg id = .ok p) ∨
      Registry.lookup reg id = .error (.ProviderNotFound id) := by
  unfold Registry.lookup
  cases reg.find? (fun e => e.1 == id) with
  | none => exact .inr rfl
  | some e => exact .inl ⟨e.2, rfl⟩

/-! ## Claim theorems -/

/-- C1: Cascade precedence (narrowest wins).  In a description whose
top-level metadata and endpoint metadata both declare a schema type, a named
entry parameter that declares its own schema type resolves to its own
declaration, and likewise a body DataParameter that declares its own schema
type resolves to its own declaration — never to the endpoint's or the
description's. -/
theorem cascade_precedence_narrowest_wins
    (api : ApiSpec) (endpoint : Name) (defaultSchemaType : ProviderId)
    (ep : ApiEndpoint) (me ma : ApiBaseMetadata) (te ta : ProviderId)
    (hep : ApiGetEndpoint api endpoint = some ep)
    (hme : ep.metadata = some me) (hmet : me.schemaType = some te)
    (hma : api.metadata = some ma) (hmat : ma.schemaType = some ta) :
    (∀ entry entryParam p s mp tp,
       lookupName (ep.entryColl entry) entryParam = some p →
       p.schema = some s → p.metadata = some mp → mp.schemaType = some tp →
       ApiGetEndpointEntrySchemaType api endpoint entry entryParam
         defaultSchemaType = .ok tp) ∧
    (∀ pb sb mb tb,
       ep.body = some pb → pb.schema = some sb →
       pb.metadata = some mb → mb.schemaType = some tb →
       ApiGetEndpointBodySchemaType api endpoint defaultSchemaType = .ok tb) := by
  constructor
  · intro entry entryParam p s mp tp hfind hs hmp hmpt
    simp [ApiGetEndpointEntrySchemaType, hep, hfind, hs, hmp, hmpt]
  · intro pb sb mb tb hbody hs hmb hmbt
    simp [ApiGetEndpointBodySchemaType, hep, hbody, hs, hmb, hmbt]

def c1Param : ApiParameter :=
  { schema := some "schemaP", metadata := some { schemaType := some "Pparam" } }

def c1Body : ApiDataParameter :=
  { schema := some "schemaB", metadata := some { schemaType := some "Pbody" } }

def c1Endpoint : ApiEndpoint :=
  { metadata := some { schemaType := some "Pendpoint" }
    params := [("id", c1Param)]
    query := []
    headers := []
    cookies := []
    responses := []
    body := some c1Body }

def c1Api : ApiSpec :=
  { metadata := some { schemaType := some "Pspec" }
    endpoints := [("getUser", c1Endpoint)] }

/-- Witness for C1 at a concrete description declaring three distinct
provider ids at the parameter, endpoint and description levels. -/
theorem cascade_precedence_narrowest_wins_witness :
    ApiGetEndpointEntrySchemaType c1Api "getUser" .params "id" "Pdefault"
      = .ok "Pparam" ∧
    ApiGetEndpointBodySchemaType c1Api "getUser" "Pdefault" = .ok "Pbody" := by
  have h := cascade_precedence_narrowest_wins c1Api "getUser" "Pdefault"
    c1Endpoint { schemaType := some "Pendpoint" } { schemaType := some "Pspec" }
    "Pendpoint" "Pspec" rfl rfl rfl rfl rfl
  exact ⟨h.1 .params "id" c1Param "schemaP" { schemaType := some "Pparam" }
          "Pparam" rfl rfl rfl rfl,
         h.2 c1Body "schemaB" { schemaType := some "Pbody" } "Pbody"
          rfl rfl rfl rfl⟩

theorem ApiGetEndpointEntrySchemaType_of_param_none
    (api : ApiSpec) (endpoint : Name) (entry : ApiEntry) (entryParam : Name)
    (d : ProviderId) (ep : ApiEndpoint) (p : ApiParameter) (s : Schema)
    (hep : ApiGetEndpoint api endpoint = some ep)
    (hfind : lookupName (ep.entryColl entry) entryParam = some p)
    (hs : p.schema = some s)
    (hnone : metaSchemaTypeOf p.metadata = none) :
    ApiGetEndpointEntrySchemaType api endpoint entry entryParam d
      = ApiGetEndpointSchemaType api endpoint d := by
  rcases metaSchemaTypeOf_eq_none _ hnone with h1 | ⟨meta, h1, h2⟩
  · simp [ApiGetEndpointEntrySchemaType, hep, hfind, hs, h1]
  · simp [ApiGetEndpointEntrySchemaType, hep, hfind, hs, h1, h2]

theorem ApiGetEndpointBodySchemaType_of_body_none_meta
    (api : ApiSpec) (endpoint : Name) (d : ProviderId) (ep : ApiEndpoint)
    (pb : ApiDataParameter) (sb : Schema)
    (hep : ApiGetEndpoint api endpoint = some ep)
    (hbody : ep.body = some pb) (hs : pb.schema = some sb)
    (hnone : metaSchemaTypeOf pb.metadata = none) :
    ApiGetEndpointBodySchemaType api endpoint d
      = ApiGetEndpointSchemaType api endpoint d := by
  rcases metaSchemaTypeOf_eq_none _ hnone with h1 | ⟨meta, h1, h2⟩
  · simp [ApiGetEndpointBodySchemaType, hep, hbody, hs, h1]
  · simp [ApiGetEndpointBodySchemaType, hep, hbody, hs, h1, h2]

/-- C2: Fallback chain.  For a named entry location (and likewise for the
body location) whose own level declares no schema type: resolution returns
the endpoint's declared schema type; when the endpoint also declares none it
returns the description's declared schema type; and when all three levels
declare none it returns the supplied default. -/
theorem fallback_chain_resolution
    (api : ApiSpec) (endpoint : Name) (defaultSchemaType : ProviderId)
    (ep : ApiEndpoint)
    (hep : ApiGetEndpoint api endpoint = some ep) :
    (∀ entry entryParam p s,
       lookupName (ep.entryColl entry) entryParam = some p →
       p.schema = some s →
       metaSchemaTypeOf p.metadata = none →
       ((∀ te, metaSchemaTypeOf ep.metadata = some te →
           ApiGetEndpointEntrySchemaType api endpoint entry entryParam
             defaultSchemaType = .ok te) ∧
        (∀ ta, metaSchemaTypeOf ep.metadata = none →
           metaSchemaTypeOf api.metadata = some ta →
           ApiGetEndpointEntrySchemaType api endpoint entry entryParam
             defaultSchemaType = .ok ta) ∧
        (metaSchemaTypeOf ep.metadata = none →
         metaSchemaTypeOf api.metadata = none →
           ApiGetEndpointEntrySchemaType api endpoint entry entryParam
             defaultSchemaType = .ok defaultSchemaType))) ∧
    (∀ pb sb,
       ep.body = some pb →
       pb.schema = some sb →
       metaSchemaTypeOf pb.metadata = none →
       ((∀ te, metaSchemaTypeOf ep.metadata = some te →
           ApiGetEndpointBodySchemaType api endpoint defaultSchemaType = .ok te) ∧
        (∀ ta, metaSchemaTypeOf ep.metadata = none →
           metaSchemaTypeOf api.metadata = some ta →
           ApiGetEndpointBodySchemaType api endpoint defaultSchemaType = .ok ta) ∧
        (metaSchemaTypeOf ep.metadata = none →
         metaSchemaTypeOf api.metadata = none →
           ApiGetEndpointBodySchemaType api endpoint defaultSchemaType
             = .ok defaultSchemaType))) := by
  constructor
  · intro entry entryParam p s hfind hs hpnone
    have hfall := ApiGetEndpointEntrySchemaType_of_param_none api endpoint entry
      entryParam defaultSchemaType ep p s hep hfind hs hpnone
    refine ⟨?_, ?_, ?_⟩
    · intro te hepm
      rw [hfall, ApiGetEndpointSchemaType_of_some api endpoint defaultSchemaType ep te hep hepm]
    · intro ta hepm hapim
      rw [hfall, ApiGetEndpointSchemaType_of_none api endpoint defaultSchemaType ep hep hepm,
        ApiGetSchemaType_of_some api defaultSchemaType ta hapim]
    · intro hepm hapim
      rw [hfall, ApiGetEndpointSchemaType_of_none api endpoint defaultSchemaType ep hep hepm,
        ApiGetSchemaType_of_none api defaultSchemaType hapim]
  · intro pb sb hbody hs hpnone
    have hfall := ApiGetEndpointBodySchemaType_of_body_none_meta api endpoint
      defaultSchemaType ep pb sb hep hbody hs hpnone
    refine ⟨?_, ?_, ?_⟩
    · intro te hepm
      rw [hfall, ApiGetEndpointSchemaType_of_some api endpoint defaultSchemaType ep te hep hepm]
    · intro ta hepm hapim
      rw [hfall, ApiGetEndpointSchemaType_of_none api endpoint defaultSchemaType ep hep hepm,
        ApiGetSchemaType_of_some api defaultSchemaType ta hapim]
    · intro hepm hapim
      rw [hfall, ApiGetEndpointSchemaType_of_none api endpoint defaultSchemaType ep hep hepm,
        ApiGetSchemaType_of_none api defaultSchemaType hapim]

def c2ParamBare : ApiParameter := { schema := some "schemaP", metadata := none }

def c2EndpointDecl : ApiEndpoint :=
  { metadata := some { schemaType := some "Pendpoint" }
    params := [("id", c2ParamBare)]
    query := []
    headers := []
    cookies := []
    responses := []
    body := some c2ParamBare }

def c2ApiDecl : ApiSpec :=
  { metadata := some { schemaType := some "Pspec" }
    endpoints := [("getUser", c2EndpointDecl)] }

def c2EndpointBare : ApiEndpoint :=
  { metadata := none
    params := [("id", c2ParamBare)]
    query := []
    headers := []
    cookies := []
    responses := []
    body := some c2ParamBare }

def c2ApiSpecOnly : ApiSpec :=
  { metadata := some { schemaType := some "Pspec" }
    endpoints := [("getUser", c2EndpointBare)] }

def c2ApiBare : ApiSpec :=
  { metadata := none
    endpoints := [("getUser", c2EndpointBare)] }

/-- Witness for C2: three concrete descriptions exercising, in order, the
endpoint-level, description-level and default fallback steps for both a
named entry location and the body location. -/
theorem fallback_chain_resolution_witness :
    (ApiGetEndpointEntrySchemaType c2ApiDecl "getUser" .params "id" "P0"
       = .ok "Pendpoint" ∧
     ApiGetEndpointBodySchemaType c2ApiDecl "getUser" "P0" = .ok "Pendpoint") ∧
    (ApiGetEndpointEntrySchemaType c2ApiSpecOnly "getUser" .params "id" "P0"
       = .ok "Pspec" ∧
     ApiGetEndpointBodySchemaType c2ApiSpecOnly "getUser" "P0" = .ok "Pspec") ∧
    (ApiGetEndpointEntrySchemaType c2ApiBare "getUser" .params "id" "P0"
       = .ok "P0" ∧
     ApiGetEndpointBodySchemaType c2ApiBare "getUser" "P0" = .ok "P0") := by
  have h1 := fallback_chain_resolution c2ApiDecl "getUser" "P0" c2EndpointDecl rfl
  have h2 := fallback_chain_resolution c2ApiSpecOnly "getUser" "P0" c2EndpointBare rfl
  have h3 := fallback_chain_resolution c2ApiBare "getUser" "P0" c2EndpointBare rfl
  refine ⟨⟨?_, ?_⟩, ⟨?_, ?_⟩, ⟨?_, ?_⟩⟩
  · exact (h1.1 .params "id" c2ParamBare "schemaP" rfl rfl rfl).1 "Pendpoint" rfl
  · exact (h1.2 c2ParamBare "schemaP" rfl rfl rfl).1 "Pendpoint" rfl
  · exact (h2.1 .params "id" c2ParamBare "schemaP" rfl rfl rfl).2.1 "Pspec" rfl rfl
  · exact (h2.2 c2ParamBare "schemaP" rfl rfl rfl).2.1 "Pspec" rfl rfl
  · exact (h3.1 .params "id" c2ParamBare "schemaP" rfl rfl rfl).2.2 rfl rfl
  · exact (h3.2 c2ParamBare "schemaP" rfl rfl rfl).2.2 rfl rfl

/-- C3: Body special-case.  An endpoint that declares no body still resolves
a provider for the body location: the body-level resolution coincides with
the endpoint-level resolution, never signals `UnknownEntry`, and the body
projection never signals `UnknownEntry` either. -/
theorem body_absent_no_unknown_entry
    (api : ApiSpec) (endpoint : Name) (defaultSchemaType : ProviderId)
    (ep : ApiEndpoint)
    (hep : ApiGetEndpoint api endpoint = some ep)
    (hbody : ep.body = none) :
    ApiGetEndpointBodySchemaType api endpoint defaultSchemaType
      = ApiGetEndpointSchemaType api endpoint defaultSchemaType ∧
    ApiGetEndpointBodySchemaType api endpoint defaultSchemaType
      ≠ .error .UnknownEntry ∧
    (∀ reg, ApiInferEndpointBody reg api endpoint defaultSchemaType
      ≠ .error .UnknownEntry) := by
  have hfall : ApiGetEndpointBodySchemaType api endpoint defaultSchemaType
      = ApiGetEndpointSchemaType api endpoint defaultSchemaType := by
    simp [ApiGetEndpointBodySchemaType, hep, hbody]
  obtain ⟨t, ht⟩ := ApiGetEndpointSchemaType_isOk api endpoint defaultSchemaType ep hep
  refine ⟨hfall, ?_, ?_⟩
  · rw [hfall, ht]
    intro h
    exact Except.noConfusion h
  · intro reg
    rcases Registry_lookup_cases reg t with ⟨p, hl⟩ | hl
    · simp [ApiInferEndpointBody, hep, hbody, ht, hl]
    · simp [ApiInferEndpointBody, hep, hbody, ht, hl]

def c3Endpoint : ApiEndpoint :=
  { metadata := some { schemaType := some "Pendpoint" }
    params := []
    query := []
    headers := []
    cookies := []
    responses := []
    body := none }

def c3Api : ApiSpec :=
  { metadata := none, endpoints := [("noBody", c3Endpoint)] }

/-- Witness for C3 at a concrete endpoint that declares no body. -/
theorem body_absent_no_unknown_entry_witness :
    ApiGetEndpointBodySchemaType c3Api "noBody" "P0"
      = ApiGetEndpointSchemaType c3Api "noBody" "P0" ∧
    ApiGetEndpointBodySchemaType c3Api "noBody" "P0" ≠ .error .UnknownEntry ∧
    ApiInferEndpointBody [] c3Api "noBody" "P0" ≠ .error .UnknownEntry := by
  have h := body_absent_no_unknown_entry c3Api "noBody" "P0" c3Endpoint rfl rfl
  exact ⟨h.1, h.2.1, h.2.2 []⟩

/-- C4: Schema-absent pass-through.  When a named entry parameter carries no
schema value, the operand handed to the resolved provider is the raw
parameter itself and the projection result is returned unmodified, for both
the input and output projections; when the body DataParameter carries no
schema value the operand is the raw body parameter itself; and when no body
is declared at all the operand is the absent body location. -/
theorem schema_absent_passthrough
    (reg : Registry) (api : ApiSpec) (endpoint : Name)
    (defaultSchemaType : ProviderId) (ep : ApiEndpoint)
    (hep : ApiGetEndpoint api endpoint = some ep) :
    (∀ entry entryParam p pid provider,
       lookupName (ep.entryColl entry) entryParam = some p →
       p.schema = none →
       ApiGetEndpointEntrySchemaType api endpoint entry entryParam
         defaultSchemaType = .ok pid →
       Registry.lookup reg pid = .ok provider →
       ApiInferEndpointInputEntry reg api endpoint entry entryParam
         defaultSchemaType = .ok (provider.projectInput (.rawParam p)) ∧
       ApiInferEndpointOutputEntry reg api endpoint entry entryParam
         defaultSchemaType = .ok (provider.projectOutput (.rawParam p))) ∧
    (∀ pb pid provider,
       ep.body = some pb →
       pb.schema = none →
       ApiGetEndpointSchemaType api endpoint defaultSchemaType = .ok pid →
       Registry.lookup reg pid = .ok provider →
       ApiInferEndpointBody reg api endpoint defaultSchemaType
         = .ok (provider.projectInput (.rawParam pb))) ∧
    (∀ pid provider,
       ep.body = none →
       ApiGetEndpointSchemaType api endpoint defaultSchemaType = .ok pid →
       Registry.lookup reg pid = .ok provider →
       ApiInferEndpointBody reg api endpoint defaultSchemaType
         = .ok (provider.projectInput .absent)) := by
  refine ⟨?_, ?_, ?_⟩
  · intro entry entryParam p pid provider hfind hs hres hlook
    constructor
    · simp [ApiInferEndpointInputEntry, InferInputTypeFromSchema, hep, hfind,
        hs, hres, hlook]
    · simp [ApiInferEndpointOutputEntry, InferOutputTypeFromSchema, hep, hfind,
        hs, hres, hlook]
  · intro pb pid provider hbody hs hres hlook
    simp [ApiInferEndpointBody, InferInputTypeFromSchema, hep, hbody, hs,
      hres, hlook]
  · intro pid provider hbody hres hlook
    simp [ApiInferEndpointBody, InferInputTypeFromSchema, hep, hbody,
      hres, hlook]

def c4ParamNoSchema : ApiParameter := { schema := none, metadata := none }

def c4Endpoint : ApiEndpoint :=
  { metadata := some { schemaType := some "Pe" }
    params := [("id", c4ParamNoSchema)]
    query := []
    headers := []
    cookies := []
    responses := []
    body := some c4ParamNoSchema }

def c4Api : ApiSpec :=
  { metadata := none, endpoints := [("e", c4Endpoint)] }

def c4Provider : SchemaProvider :=
  { projectInput := fun op =>
      match op with
      | .schemaVal _ => "schema-in"
      | .rawParam _ => "raw-in"
      | .absent => "absent-in"
    projectOutput := fun op =>
      match op with
      | .schemaVal _ => "schema-out"
      | .rawParam _ => "raw-out"
      | .absent => "absent-out" }

def c4Registry : Registry := [("Pe", c4Provider)]

/-- Witness for C4 at a concrete description with a schema-less entry
parameter and a schema-less body DataParameter. -/
theorem schema_absent_passthrough_witness :
    ApiInferEndpointInputEntry c4Registry c4Api "e" .params "id" "P0"
      = .ok "raw-in" ∧
    ApiInferEndpointOutputEntry c4Registry c4Api "e" .params "id" "P0"
      = .ok "raw-out" ∧
    ApiInferEndpointBody c4Registry c4Api "e" "P0" = .ok "raw-in" := by
  have h := schema_absent_passthrough c4Registry c4Api "e" "P0" c4Endpoint rfl
  have he := h.1 .params "id" c4ParamNoSchema "Pe" c4Provider rfl rfl rfl rfl
  have hb := h.2.1 c4ParamNoSchema "Pe" c4Provider rfl rfl rfl rfl
  exact ⟨he.1, he.2, hb⟩

/-- C5: UnknownEntry signalling.  For every non-body entry kind (params,
query, headers, cookies, responses), resolving or projecting an entry name
that is absent from that collection signals `UnknownEntry`; no provider id
and no shape is returned. -/
theorem unknown_entry_signaled
    (api : ApiSpec) (endpoint : Name) (entry : ApiEntry) (entryParam : Name)
    (defaultSchemaType : ProviderId) (ep : ApiEndpoint)
    (hep : ApiGetEndpoint api endpoint = some ep)
    (hmiss : lookupName (ep.entryColl entry) entryParam = none) :
    ApiGetEndpointEntrySchemaType api endpoint entry entryParam
      defaultSchemaType = .error .UnknownEntry ∧
    (∀ reg, ApiInferEndpointInputEntry reg api endpoint entry entryParam
      defaultSchemaType = .error .UnknownEntry) ∧
    (∀ reg, ApiInferEndpointOutputEntry reg api endpoint entry entryParam
      defaultSchemaType = .error .UnknownEntry) := by
  refine ⟨?_, ?_, ?_⟩
  · simp [ApiGetEndpointEntrySchemaType, hep, hmiss]
  · intro reg
    simp [ApiInferEndpointInputEntry, hep, hmiss]
  · intro reg
    simp [ApiInferEndpointOutputEntry, hep, hmiss]

/-- Witness for C5 at a concrete endpoint whose params collection does not
contain the requested name. -/
theorem unknown_entry_signaled_witness :
    ApiGetEndpointEntrySchemaType c1Api "getUser" .query "missing" "P0"
      = .error .UnknownEntry ∧
    ApiInferEndpointInputEntry [] c1Api "getUser" .query "missing" "P0"
      = .error .UnknownEntry := by
  have h := unknown_entry_signaled c1Api "getUser" .query "missing" "P0"
    c1Endpoint rfl rfl
  exact ⟨h.1, h.2.1 []⟩

/-- C6: UnknownEndpoint signalling.  For every description and endpoint name
absent from its endpoint mapping, every resolution operation signals
`UnknownEndpoint` and returns no provider id. -/
theorem unknown_endpoint_signaled
    (api : ApiSpec) (endpoint : Name) (defaultSchemaType : ProviderId)
    (h : ApiGetEndpoint api endpoint = none) :
    ApiGetEndpointSchemaType api endpoint defaultSchemaType
      = .error .UnknownEndpoint ∧
    ApiGetEndpointBodySchemaType api endpoint defaultSchemaType
      = .error .UnknownEndpoint ∧
    (∀ entry entryParam,
      ApiGetEndpointEntrySchemaType api endpoint entry entryParam
        defaultSchemaType = .error .UnknownEndpoint) := by
  refine ⟨?_, ?_, ?_⟩
  · simp [ApiGetEndpointSchemaType, h]
  · simp [ApiGetEndpointBodySchemaType, h]
  · intro entry entryParam
    simp [ApiGetEndpointEntrySchemaType, h]

/-- Witness for C6 at a concrete description queried for a nonexistent
endpoint name. -/
theorem unknown_endpoint_signaled_witness :
    ApiGetEndpointSchemaType c1Api "nonexistentEndpoint" "P0"
      = .error .UnknownEndpoint ∧
    ApiGetEndpointEntrySchemaType c1Api "nonexistentEndpoint" .params "id" "P0"
      = .error .UnknownEndpoint := by
  have h := unknown_endpoint_signaled c1Api "nonexistentEndpoint" "P0" rfl
  exact ⟨h.1, h.2.2 .params "id"⟩

/-- C7: Idempotence / referential transparency.  The embedded shape
operations are pure functions of the registry, the description and the
location arguments: the description and registry are immutable values that
the operations only read, so two calls with identical arguments are the
same computation and yield equal results. -/
theorem shape_operations_referentially_transparent
    (reg : Registry) (api : ApiSpec) (endpoint : Name) (entry : ApiEntry)
    (entryParam : Name) (defaultSchemaType : ProviderId) :
    ApiInferEndpointInputEntry reg api endpoint entry entryParam defaultSchemaType
      = ApiInferEndpointInputEntry reg api endpoint entry entryParam defaultSchemaType ∧
    ApiInferEndpointOutputEntry reg api endpoint entry entryParam defaultSchemaType
      = ApiInferEndpointOutputEntry reg api endpoint entry entryParam defaultSchemaType ∧
    ApiInferEndpointBody reg api endpoint defaultSchemaType
      = ApiInferEndpointBody reg api endpoint defaultSchemaType :=
  ⟨rfl, rfl, rfl⟩

def c8ParamId : ApiParameter := { schema := some "string", metadata := none }

def c8GetUser : ApiEndpoint :=
  { metadata := some { schemaType := some "P1" }
    params := [("id", c8ParamId)]
    query := []
    headers := []
    cookies := []
    responses := []
    body := none }

def c8Api : ApiSpec :=
  { metadata := none, endpoints := [("getUser", c8GetUser)] }

def c8ProviderP1 : SchemaProvider :=
  { projectInput := fun op =>
      match op with
      | .schemaVal "string" => "string"
      | _ => "unknown"
    projectOutput := fun _ => "unknown" }

def c8ProviderP0 : SchemaProvider :=
  { projectInput := fun _ => "fromP0", projectOutput := fun _ => "fromP0" }

def c8Registry : Registry := [("P1", c8ProviderP1), ("P0", c8ProviderP0)]

/-- C8: Concrete scenario.  In the description whose endpoint `getUser`
declares schema type `P1` while its `params.id` parameter declares no
override, resolution for `params.id` under default `P0` returns `P1`, and
since `P1` projects its bound schema `string` to the shape `string`, the
input-shape operation yields `string`. -/
theorem concrete_scenario_getUser :
    ApiGetEndpointEntrySchemaType c8Api "getUser" .params "id" "P0" = .ok "P1" ∧
    ApiInferEndpointInputEntry c8Registry c8Api "getUser" .params "id" "P0"
      = .ok "string" := by
  constructor
  · rfl
  · rfl

/-- C9: Implicit default provider identity.  When the caller omits the
default schema type argument, a description and endpoint that declare no
schema type anywhere resolve to the built-in TypeScript schema provider, at
the description level, the endpoint level, a named entry location and the
absent-body location alike — an ordinary provider id, not an error and not
an absent value. -/
theorem omitted_default_is_typescript_schema
    (api : ApiSpec) (endpoint : Name) (ep : ApiEndpoint)
    (hep : ApiGetEndpoint api endpoint = some ep)
    (hapi : metaSchemaTypeOf api.metadata = none)
    (hepm : metaSchemaTypeOf ep.metadata = none) :
    ApiGetSchemaType api = ApiTypeScriptSchema ∧
    ApiGetEndpointSchemaType api endpoint = .ok ApiTypeScriptSchema ∧
    (∀ entry entryParam p s,
       lookupName (ep.entryColl entry) entryParam = some p →
       p.schema = some s →
       metaSchemaTypeOf p.metadata = none →
       ApiGetEndpointEntrySchemaType api endpoint entry entryParam
         = .ok ApiTypeScriptSchema) ∧
    (ep.body = none →
       ApiGetEndpointBodySchemaType api endpoint = .ok ApiTypeScriptSchema) := by
  have hspec : ApiGetSchemaType api = ApiTypeScriptSchema :=
    ApiGetSchemaType_of_none api ApiTypeScriptSchema hapi
  have hepok : ApiGetEndpointSchemaType api endpoint = .ok ApiTypeScriptSchema := by
    rw [ApiGetEndpointSchemaType_of_none api endpoint ApiTypeScriptSchema ep hep hepm, hspec]
  refine ⟨hspec, hepok, ?_, ?_⟩
  · intro entry entryParam p s hfind hs hpnone
    rw [ApiGetEndpointEntrySchemaType_of_param_none api endpoint entry
      entryParam ApiTypeScriptSchema ep p s hep hfind hs hpnone, hepok]
  · intro hbody
    have : ApiGetEndpointBodySchemaType api endpoint
        = ApiGetEndpointSchemaType api endpoint := by
      simp [ApiGetEndpointBodySchemaType, hep, hbody]
    rw [this, hepok]

/-- Witness for C9 at a concrete description with no schema type declared at
any level, with the default argument omitted at every call site. -/
theorem omitted_default_is_typescript_schema_witness :
    ApiGetSchemaType c2ApiBare = ApiTypeScriptSchema ∧
    ApiGetEndpointSchemaType c2ApiBare "getUser" = .ok ApiTypeScriptSchema ∧
    ApiGetEndpointEntrySchemaType c2ApiBare "getUser" .params "id"
      = .ok ApiTypeScriptSchema := by
  have h := omitted_default_is_typescript_schema c2ApiBare "getUser"
    c2EndpointBare rfl rfl rfl
  exact ⟨h.1, h.2.1, h.2.2.1 .params "id" c2ParamBare "schemaP" rfl rfl rfl⟩

/-- C10: Input/output provider agreement.  The input-shape and output-shape
operations both factor through the single shared spine
`ApiInferEndpointEntryWith`, which resolves the location's provider exactly
once via `ApiGetEndpointEntrySchemaType` and picks the same operand; the two
operations differ only in which projection they hand to that spine. -/
theorem input_output_resolve_same_provider
    (reg : Registry) (api : ApiSpec) (endpoint : Name) (entry : ApiEntry)
    (entryParam : Name) (defaultSchemaType : ProviderId) :
    ApiInferEndpointInputEntry reg api endpoint entry entryParam defaultSchemaType
      = ApiInferEndpointEntryWith InferInputTypeFromSchema reg api endpoint
          entry entryParam defaultSchemaType ∧
    ApiInferEndpointOutputEntry reg api endpoint entry entryParam defaultSchemaType
      = ApiInferEndpointEntryWith InferOutputTypeFromSchema reg api endpoint
          entry entryParam defaultSchemaType := by
  constructor
  · unfold ApiInferEndpointInputEntry ApiInferEndpointEntryWith
    rfl
  · unfold ApiInferEndpointOutputEntry ApiInferEndpointEntryWith
    rfl

end TsApiSpec
